import Mathlib

/-!
Shallow embedding of the ISHW school-community Flask application
(`app/routes.py`, `app/models.py`) and proofs about its request handlers:
registration, login, feedback (ideas), the RSS notices reader and the
campus-map bounds computation.

Strings are Lean `String`s, the relational store is a record of lists,
`datetime.utcnow()` is an abstract `Nat` tick supplied per request, and
fallible `db.session.commit()` calls are driven by a Boolean oracle.
-/

namespace ISHW

/-- ASCII whitespace recognised by Python `str.strip()` / `str.split()`:
space, tab, newline, carriage return, vertical tab, form feed. -/
def isPySpace (c : Char) : Bool :=
  c == ' ' || c == '\t' || c == '\n' || c == '\r' || c == '\x0b' || c == '\x0c'

/-- Python `str.strip()`: drop leading and trailing whitespace. -/
def pyStrip (s : String) : String :=
  ⟨((s.data.dropWhile isPySpace).reverse.dropWhile isPySpace).reverse⟩

/-- Number of words as counted by Python `len(text.split())`:
maximal runs of non-whitespace characters. -/
def wordCount (s : String) : Nat :=
  ((s.data.splitOnP isPySpace).filter (fun w => !w.isEmpty)).length

/-- `re.sub(r"<[^>]*>", "", text)`: delete every `<...>` span that has a
closing `>`; a `<` with no later `>` is kept verbatim (the regex cannot
match there).  The second argument buffers a candidate tag (reversed)
while scanning for its `>`. -/
def stripTagsAux : List Char → Option (List Char) → List Char
  | [], none => []
  | [], some buf => buf.reverse
  | c :: rest, none =>
      if c == '<' then stripTagsAux rest (some ['<'])
      else c :: stripTagsAux rest none
  | c :: rest, some buf =>
      if c == '>' then stripTagsAux rest none
      else stripTagsAux rest (c :: buf)

/-- HTML-tag removal step of the sanitizer. -/
def stripTags (s : String) : String :=
  ⟨stripTagsAux s.data none⟩

/-- `markupsafe.escape` on one character. -/
def escapeChar (c : Char) : String :=
  if c == '&' then "&amp;"
  else if c == '<' then "&lt;"
  else if c == '>' then "&gt;"
  else if c == '"' then "&#34;"
  else if c == '\'' then "&#39;"
  else String.singleton c

/-- `markupsafe.escape`, character by character. -/
def escapeList : List Char → List Char
  | [] => []
  | c :: rest => (escapeChar c).data ++ escapeList rest

/-- `markupsafe.escape` applied to a plain string. -/
def escape (s : String) : String :=
  ⟨escapeList s.data⟩

/-- The five characters `markupsafe.escape` rewrites. -/
def isHtmlSpecial (c : Char) : Bool :=
  c == '&' || c == '<' || c == '>' || c == '"' || c == '\''

/-- The inner `sanitize` helper of the `register` route: strip HTML tags,
escape the remaining special characters, then reject the text (`None`)
when it exceeds the word or character limit. -/
def sanitize (text : String) (max_words max_chars : Nat) : Option String :=
  let text := escape (stripTags text)
  if wordCount text > max_words then none
  else if text.length > max_chars then none
  else some text

/-! ## Data model (`app/models.py`) -/

/-- A `student` row.  `password` is stored in plain text, as in the source. -/
structure Student where
  id : Nat
  student_number : String
  name : String
  password : String
  email : String
  hobbies : Option String
  destination : Option String
deriving Repr, DecidableEq

/-- An `idea` (feedback) row. -/
structure Idea where
  id : Nat
  content : String
  timestamp : Nat
  student_id : Nat
deriving Repr, DecidableEq

/-- A `tutor` row; the handler passes the sanitized `year` string through. -/
structure Tutor where
  student_id : Nat
  subjects : String
  year : String
deriving Repr, DecidableEq

/-- The relational store: the tables the handlers under proof touch. -/
structure DB where
  students : List Student
  tutors : List Tutor
  ideas : List Idea
deriving Repr, DecidableEq

/-- The Flask session, carrying only `student_number` and `name`. -/
structure Session where
  student_number : Option String
  name : Option String
deriving Repr, DecidableEq

/-- Python truthiness test `not x` for an optional form string:
true on an absent field and on the empty string. -/
def optFalsy : Option String → Bool
  | none => true
  | some s => s == ""

/-! ## Registration handler (`register`, routes.py lines 148-226) -/

/-- The POST form of the `register` route.  `student_number`, `password`,
`student_name` and `email` are accessed with `request.form[...]` (required);
the rest with `request.form.get(...)` and may be absent. -/
structure RegisterForm where
  student_number : String
  password : String
  student_name : String
  student_lastname : Option String
  email : String
  is_tutor : Option String
  subjects : Option String
  year : Option String
deriving Repr, DecidableEq

/-- What the `register` route hands back to the client. -/
inductive RegisterOutcome where
  /-- an unhandled exception escaped the handler (HTTP 500) -/
  | crash
  /-- flashed the given error and re-rendered `register.html`
  with `alreadyexist = False` -/
  | validationView (msg : String)
  /-- re-rendered `register.html` with `alreadyexist = True` -/
  | duplicateView
  /-- redirect to home after auto-login -/
  | redirectHome
deriving Repr, DecidableEq

/-- The `register` POST handler.  `commitOk n` tells whether the `n`-th
`db.session.commit()` of this request succeeds; a failed commit raises,
persists nothing of its own transaction, and the exception escapes the
handler (there is no try/except here). -/
def register (db : DB) (sess : Session) (f : RegisterForm)
    (commitOk : Nat → Bool) : RegisterOutcome × DB × Session :=
  let student_number := pyStrip f.student_number
  let password := pyStrip f.password
  let name := pyStrip f.student_name ++ " " ++ pyStrip (f.student_lastname.getD "")
  let email := pyStrip f.email
  let is_tutor := f.is_tutor == some "on"
  -- `request.form.get("subjects").strip()` / `.get("year").strip()` raise
  -- AttributeError (`None.strip()`) when the field is absent and is_tutor holds
  if is_tutor && (f.subjects.isNone || f.year.isNone) then (.crash, db, sess) else
  let subjects : Option String :=
    if is_tutor then some (pyStrip (f.subjects.getD "")) else none
  let year : Option String :=
    if is_tutor then some (pyStrip (f.year.getD "")) else none
  let subjects : Option String := match subjects with
    | some s => if s != "" then sanitize s 20 200 else none
    | none => none
  let year : Option String := match year with
    | some s => if s != "" then sanitize s 1 4 else none
    | none => none
  match sanitize student_number 1 20, sanitize password 1 50,
        sanitize name 10 100, sanitize email 1 100 with
  | some sn, some pw, some nm, some em =>
    -- `if not student_number or not password or not name or not email`
    if sn == "" || pw == "" || nm == "" || em == "" then
      (.validationView "Invalid input: please check your details.", db, sess)
    else if db.students.any (fun s => s.student_number == sn) then
      (.duplicateView, db, sess)
    else if is_tutor && (optFalsy subjects || optFalsy year) then
      (.validationView "Please provide subjects and year for tutor registration.",
       db, sess)
    else
      let new_student : Student :=
        { id := db.students.length + 1, student_number := sn, name := pyStrip nm,
          password := pw, email := em, hobbies := none, destination := none }
      if !commitOk 0 then (.crash, db, sess) else
      let db1 : DB := { db with students := db.students ++ [new_student] }
      if is_tutor then
        let tutor : Tutor :=
          { student_id := new_student.id, subjects := subjects.getD "",
            year := year.getD "" }
        if !commitOk 1 then (.crash, db1, sess) else
        let db2 : DB := { db1 with tutors := db.tutors ++ [tutor] }
        (.redirectHome, db2,
         { student_number := some sn, name := some (pyStrip nm) })
      else
        (.redirectHome, db1,
         { student_number := some sn, name := some (pyStrip nm) })
  | _, _, _, _ =>
      -- a `None` from `sanitize` is falsy, same branch as an empty field
      (.validationView "Invalid input: please check your details.", db, sess)

/-! ## Login handler (`login`, routes.py lines 109-138) -/

/-- What the `login` route hands back. -/
inductive LoginOutcome where
  | redirectHome
  /-- `login.html` rendered with the given `error` flag -/
  | loginView (error : Bool)
deriving Repr, DecidableEq

/-- The `login` POST handler: plaintext-equality lookup; on a match the
session is set to the student's data, otherwise it is left as it was. -/
def login (db : DB) (sess : Session) (student_number password : String) :
    LoginOutcome × Session :=
  match db.students.find?
      (fun s => s.student_number == student_number && s.password == password) with
  | some student =>
      (.redirectHome,
       { student_number := some student.student_number, name := some student.name })
  | none => (.loginView true, sess)

/-! ## Feedback handler (`feedback`, routes.py lines 406-459) -/

/-- What the `feedback` POST route hands back. -/
inductive FeedbackOutcome where
  /-- "Please provide both student number and feedback." -/
  | missingView
  /-- "Feedback too long. Please limit to 150 words." -/
  | wordLimitView
  /-- "Feedback too long. Please limit to 1000 characters." -/
  | charLimitView
  /-- "Invalid student number. Please try again." -/
  | unknownStudentView
  /-- flashed success and redirected to the feedback list -/
  | successRedirect
  /-- commit failed: rolled back, generic error flashed -/
  | storageErrorView
deriving Repr, DecidableEq

/-- The `feedback` POST handler.  Both form fields come from
`request.form.get` and may be absent; `now` is `datetime.utcnow()`;
`commitOk` tells whether the single `db.session.commit()` succeeds
(on failure the handler rolls back, so the store is unchanged). -/
def feedback (db : DB) (now : Nat) (commitOk : Bool)
    (student_number feedback_content : Option String) : FeedbackOutcome × DB :=
  if optFalsy student_number || optFalsy feedback_content then (.missingView, db)
  else
    let sn := student_number.getD ""
    let content := escape (stripTags (feedback_content.getD ""))
    if wordCount content > 150 then (.wordLimitView, db)
    else if content.length > 1000 then (.charLimitView, db)
    else
      match db.students.find? (fun s => s.student_number == sn) with
      | none => (.unknownStudentView, db)
      | some student =>
        let new_feedback : Idea :=
          { id := db.ideas.length + 1, student_id := student.id,
            content := content, timestamp := now }
        if commitOk then
          (.successRedirect, { db with ideas := db.ideas ++ [new_feedback] })
        else (.storageErrorView, db)

/-- Descending-timestamp order used by the feedback list query. -/
def ideaDesc (a b : Idea) : Prop := b.timestamp ≤ a.timestamp

instance : DecidableRel ideaDesc := fun a b => Nat.decLe b.timestamp a.timestamp

instance : IsTotal Idea ideaDesc := ⟨fun a b => Nat.le_total b.timestamp a.timestamp⟩

instance : IsTrans Idea ideaDesc := ⟨fun _ _ _ h1 h2 => Nat.le_trans h2 h1⟩

/-- `Idea.query.order_by(Idea.timestamp.desc()).all()`: all ideas, newest
first (a stable sort of the table). -/
def readFeedback (db : DB) : List Idea :=
  db.ideas.insertionSort ideaDesc

/-! ## Notices reader (`get_school_notices`, routes.py lines 382-400) -/

/-- One RSS entry as `feedparser` exposes it: each field may be missing. -/
structure FeedEntry where
  title : Option String
  published : Option String
  description : Option String
deriving Repr, DecidableEq

/-- A parsed feed: `bozo` is feedparser's malformed-feed flag. -/
structure Feed where
  bozo : Bool
  entries : List FeedEntry
deriving Repr, DecidableEq

/-- Outcome of `feedparser.parse(...)`: a feed object, or a raised
exception (network failure and the like). -/
inductive FetchResult where
  | ok (feed : Feed)
  | exn (msg : String)
deriving Repr, DecidableEq

/-- The `{title, date, content}` dict built per entry. -/
structure Notice where
  title : String
  date : String
  content : String
deriving Repr, DecidableEq

/-- `entry.get(..., placeholder)` for the three displayed fields. -/
def noticeOfEntry (e : FeedEntry) : Notice :=
  { title := e.title.getD "No title",
    date := e.published.getD "No date",
    content := e.description.getD "No content" }

/-- `get_school_notices`: swallow exceptions and bozo feeds (empty list),
otherwise convert the first 40 entries. -/
def get_school_notices (r : FetchResult) : List Notice :=
  match r with
  | .exn _ => []
  | .ok feed =>
    if feed.bozo then []
    else (feed.entries.take 40).map noticeOfEntry

/-! ## Campus map bounds (`map_view` and `LOCATIONS`, routes.py 248-372)

Coordinates are modelled as exact rationals; the Python floats are decimal
literals and only their order matters for the min/max bounds. -/

/-- Default map center (school midpoint). -/
def SCHOOL_CENTER : ℚ × ℚ := (-43.50713855170288, 172.57701091063876)

/-- The fixed table of campus locations: name, latitude, longitude. -/
def LOCATIONS : List (String × ℚ × ℚ) :=
  [("A Block", -43.50767607962358, 172.57621966007108),
   ("B Block", -43.507258002762555, 172.57649534465384),
   ("C1 Block", -43.507336958220584, 172.57692885310962),
   ("C3-4 Block", -43.50713855170288, 172.57701091063876),
   ("P Block", -43.50679524519272, 172.57576170047136),
   ("M Block", -43.508036322773854, 172.57585920976163),
   ("Aurora Center", -43.508548336966456, 172.57611858764898),
   ("Library", -43.50768093385897, 172.57690035175943),
   ("G Block", -43.50680754991145, 172.57687446294506),
   ("L Block", -43.50729540052514, 172.57605599645274),
   ("N Block", -43.50672110583437, 172.57630225157354),
   ("E Block", -43.50743157630898, 172.57557856325985),
   ("K5-K6 Block", -43.50599959130328, 172.5766635615753),
   ("K1-K3 Block", -43.5062665985537, 172.57640539896025),
   ("Hunter Gym", -43.50632638862487, 172.57709402902427),
   ("Cross Gym", -43.50673346447026, 172.57777757004496),
   ("Dance Hall", -43.50622379965693, 172.57682248245672),
   ("Canteen", -43.50739087991838, 172.57747902572711),
   ("Pool", -43.50698842492684, 172.57770103373863),
   ("Turf/Football-Field", -43.506852653812025, 172.57802912691722),
   ("D1-D6 Block", -43.50773718242374, 172.57730998413808),
   ("D13-D16 Block", -43.50761170681216, 172.57759832158754),
   ("X Block", -43.50696927145228, 172.57637389795957),
   ("IT Office", -43.50718642257362, 172.57605667843748),
   ("Career Office", -43.5068786061543, 172.5770557109524)]

/-- Python `min(...)` over a generator; never called on an empty table. -/
def pymin : List ℚ → ℚ
  | [] => 0
  | x :: xs => xs.foldl min x

/-- Python `max(...)` over a generator; never called on an empty table. -/
def pymax : List ℚ → ℚ
  | [] => 0
  | x :: xs => xs.foldl max x

/-- The argument bundle of the `m.fit_bounds([sw, ne], padding=(80, 80))`
call. -/
structure FitBounds where
  sw : ℚ × ℚ
  ne : ℚ × ℚ
  padding : Nat × Nat
deriving Repr, DecidableEq

/-- The bounds `map_view` passes to `fit_bounds`: southwest from the
minima, northeast from the maxima over all configured locations. -/
def map_fit_bounds : FitBounds :=
  { sw := (pymin (LOCATIONS.map fun l => l.2.1),
           pymin (LOCATIONS.map fun l => l.2.2)),
    ne := (pymax (LOCATIONS.map fun l => l.2.1),
           pymax (LOCATIONS.map fun l => l.2.2)),
    padding := (80, 80) }

/-! ## Concrete fixtures shared by the witnesses and counterexamples -/

/-- An empty store. -/
def emptyDB : DB := { students := [], tutors := [], ideas := [] }

/-- A fresh (anonymous) session. -/
def emptySession : Session := { student_number := none, name := none }

/-- One registered student. -/
def student1 : Student :=
  { id := 1, student_number := "12345", name := "Jo Lee", password := "pw",
    email := "jo@x.com", hobbies := none, destination := none }

/-- A store holding exactly `student1`. -/
def db1 : DB := { students := [student1], tutors := [], ideas := [] }

/-- A valid tutor registration form (all fields present and well-formed). -/
def tutorForm : RegisterForm :=
  { student_number := "54321", password := "pw", student_name := "Amy",
    student_lastname := none, email := "amy@x.com", is_tutor := some "on",
    subjects := some "Math,Physics", year := some "13" }

/-- Commit oracle under which the first commit succeeds and the second
(the Tutor insert) fails. -/
def failSecondCommit : Nat → Bool := fun n => n == 0

/-- A tutor registration form whose `subjects` key is absent from the POST
data (the other fields are valid). -/
def tutorFormNoSubjects : RegisterForm :=
  { student_number := "54321", password := "pw", student_name := "Amy",
    student_lastname := none, email := "amy@x.com", is_tutor := some "on",
    subjects := none, year := some "13" }

/-- A tutor registration form whose `subjects` field is present but empty. -/
def tutorFormEmptySubjects : RegisterForm :=
  { student_number := "54321", password := "pw", student_name := "Amy",
    student_lastname := none, email := "amy@x.com", is_tutor := some "on",
    subjects := some "", year := some "13" }

/-- A registration form re-using `student1`'s student number but with an
empty password. -/
def dupFormEmptyPassword : RegisterForm :=
  { student_number := "12345", password := "", student_name := "Al",
    student_lastname := none, email := "al@x.com", is_tutor := none,
    subjects := none, year := none }

/-- A fully valid registration form re-using `student1`'s student number. -/
def dupFormValid : RegisterForm :=
  { student_number := "12345", password := "pw2", student_name := "Al",
    student_lastname := none, email := "al@x.com", is_tutor := none,
    subjects := none, year := none }

/-- A 1001-character single-word text, over the 1000-character feedback
limit. -/
def longText : String := ⟨List.replicate 1001 'a'⟩

/-! ## Claims -/

/-- The southwest latitude bound evaluates to the Aurora Center latitude. -/
theorem map_sw_lat_eval : map_fit_bounds.sw.1 = -43.508548336966456 := by
  simp only [map_fit_bounds, pymin, LOCATIONS, List.map, List.foldl]
  norm_num

/-- The southwest longitude bound evaluates to the E Block longitude. -/
theorem map_sw_lon_eval : map_fit_bounds.sw.2 = 172.57557856325985 := by
  simp only [map_fit_bounds, pymin, LOCATIONS, List.map, List.foldl]
  norm_num

/-- The northeast latitude bound evaluates to the K5-K6 Block latitude. -/
theorem map_ne_lat_eval : map_fit_bounds.ne.1 = -43.50599959130328 := by
  simp only [map_fit_bounds, pymax, LOCATIONS, List.map, List.foldl]
  norm_num

/-- The northeast longitude bound evaluates to the Turf longitude. -/
theorem map_ne_lon_eval : map_fit_bounds.ne.2 = 172.57802912691722 := by
  simp only [map_fit_bounds, pymax, LOCATIONS, List.map, List.foldl]
  norm_num

/-- Claim C9: the `fit_bounds` call of `map_view` uses the southwest corner
[min latitude, min longitude] and northeast corner [max latitude,
max longitude] over all configured locations, with the fixed padding
(80, 80). -/
theorem C9_map_bounds_minmax :
    (∀ loc ∈ LOCATIONS,
      map_fit_bounds.sw.1 ≤ loc.2.1 ∧ loc.2.1 ≤ map_fit_bounds.ne.1 ∧
      map_fit_bounds.sw.2 ≤ loc.2.2 ∧ loc.2.2 ≤ map_fit_bounds.ne.2) ∧
    (∃ a ∈ LOCATIONS, a.2.1 = map_fit_bounds.sw.1) ∧
    (∃ b ∈ LOCATIONS, b.2.2 = map_fit_bounds.sw.2) ∧
    (∃ c ∈ LOCATIONS, c.2.1 = map_fit_bounds.ne.1) ∧
    (∃ d ∈ LOCATIONS, d.2.2 = map_fit_bounds.ne.2) ∧
    map_fit_bounds.padding = (80, 80) := by
  refine ⟨?_, ?_, ?_, ?_, ?_, rfl⟩
  · intro loc hloc
    rw [map_sw_lat_eval, map_sw_lon_eval, map_ne_lat_eval, map_ne_lon_eval]
    simp only [LOCATIONS, List.mem_cons, List.not_mem_nil, or_false] at hloc
    rcases hloc with rfl | rfl | rfl | rfl | rfl | rfl | rfl | rfl | rfl | rfl |
      rfl | rfl | rfl | rfl | rfl | rfl | rfl | rfl | rfl | rfl | rfl | rfl |
      rfl | rfl | rfl <;> norm_num
  · exact ⟨("Aurora Center", -43.508548336966456, 172.57611858764898),
      by simp [LOCATIONS], by rw [map_sw_lat_eval]⟩
  · exact ⟨("E Block", -43.50743157630898, 172.57557856325985),
      by simp [LOCATIONS], by rw [map_sw_lon_eval]⟩
  · exact ⟨("K5-K6 Block", -43.50599959130328, 172.5766635615753),
      by simp [LOCATIONS], by rw [map_ne_lat_eval]⟩
  · exact ⟨("Turf/Football-Field", -43.506852653812025, 172.57802912691722),
      by simp [LOCATIONS], by rw [map_ne_lon_eval]⟩

/-- Claim C7 (failing half): a tutor registration whose `subjects` field is
absent crashes the handler (`None.strip()` raises) instead of rendering a
validation view, while the present-but-empty field does render the
validation view and persists nothing. -/
theorem C7_absent_tutor_field_crashes :
    register emptyDB emptySession tutorFormNoSubjects (fun _ => true) =
      (.crash, emptyDB, emptySession) ∧
    register emptyDB emptySession tutorFormEmptySubjects (fun _ => true) =
      (.validationView "Please provide subjects and year for tutor registration.",
       emptyDB, emptySession) := by
  decide

/-- Claim C1 (counterexample): a valid, non-duplicate tutor registration
whose second commit fails leaves the Student row persisted with no Tutor
row — a partial-write state is retained, contrary to the claim. -/
theorem C1_counterexample_partial_write :
    (register emptyDB emptySession tutorForm failSecondCommit).1 =
      RegisterOutcome.crash ∧
    ((register emptyDB emptySession tutorForm failSecondCommit).2.1).students ≠ [] ∧
    ((register emptyDB emptySession tutorForm failSecondCommit).2.1).tutors = [] := by
  decide

/-- Claim C2 (counterexample): an attempt whose student_number already
exists but whose password is empty is answered with the field-validation
view, not the `alreadyexist` view — the claim fails for attempts that do
not pass field validation. -/
theorem C2_counterexample_validation_first :
    (db1.students.any fun s => s.student_number == "12345") = true ∧
    (register db1 emptySession dupFormEmptyPassword (fun _ => true)).1 ≠
      RegisterOutcome.duplicateView := by
  decide

/-- Claim C5 (counterexample): the sanitizer is not idempotent — escaping
re-escapes the ampersand of the entities it introduced. -/
theorem C5_counterexample_reescape :
    sanitize "a&b" 50 200 = some "a&amp;b" ∧
    sanitize "a&amp;b" 50 200 = some "a&amp;amp;b" ∧
    sanitize "a&amp;b" 50 200 ≠ some "a&amp;b" := by
  decide

/-- Claim C8: the notices reader never propagates a failure — a raised
exception or a malformed (bozo) feed yields the empty list — and otherwise
returns at most 40 entries, each the {title, date, content} triple of some
feed entry with placeholder strings substituted for missing fields. -/
theorem C8_notices_fail_soft (r : FetchResult) :
    (get_school_notices r).length ≤ 40 ∧
    (∀ msg, r = .exn msg → get_school_notices r = []) ∧
    (∀ f, r = .ok f → f.bozo = true → get_school_notices r = []) ∧
    (∀ n ∈ get_school_notices r, ∃ f, ∃ e ∈ f.entries, r = .ok f ∧
      n.title = e.title.getD "No title" ∧
      n.date = e.published.getD "No date" ∧
      n.content = e.description.getD "No content") := by
  refine ⟨?_, ?_, ?_, ?_⟩
  · obtain ⟨bozo, entries⟩ | msg := r
    · cases bozo
      · show (List.map noticeOfEntry (List.take 40 entries)).length ≤ 40
        rw [List.length_map]
        exact List.length_take_le _ _
      · show (List.length []) ≤ 40
        exact Nat.zero_le _
    · exact Nat.zero_le _
  · rintro msg rfl
    rfl
  · rintro f rfl hb
    simp [get_school_notices, hb]
  · intro n hn
    obtain ⟨bozo, entries⟩ | msg := r
    · cases bozo
      · have hn' : n ∈ List.map noticeOfEntry (List.take 40 entries) := hn
        rw [List.mem_map] at hn'
        obtain ⟨e, he, rfl⟩ := hn'
        exact ⟨⟨false, entries⟩, e, List.mem_of_mem_take he, rfl, rfl, rfl, rfl⟩
      · exact absurd hn (List.not_mem_nil n)
    · exact absurd hn (List.not_mem_nil n)

/-- Witness for C8: a raised fetch error yields the empty list, and a
well-formed feed never yields more than 40 notices. -/
theorem C8_notices_fail_soft_witness :
    get_school_notices (.exn "connection refused") = [] ∧
    (get_school_notices (.ok ⟨false, [⟨none, none, none⟩]⟩)).length ≤ 40 :=
  ⟨(C8_notices_fail_soft (.exn "connection refused")).2.1 "connection refused" rfl,
   (C8_notices_fail_soft (.ok ⟨false, [⟨none, none, none⟩]⟩)).1⟩

/-- Claim C6: a login attempt matching no student row (on number and
password together) renders the login view with the error flag and leaves
the session exactly as it was. -/
theorem C6_login_no_match_frame (db : DB) (sess : Session) (sn pw : String)
    (h : ∀ s ∈ db.students, ¬(s.student_number = sn ∧ s.password = pw)) :
    login db sess sn pw = (.loginView true, sess) := by
  unfold login
  have hfind : db.students.find?
      (fun s => s.student_number == sn && s.password == pw) = none := by
    rw [List.find?_eq_none]
    intro s hs
    simp only [Bool.and_eq_true, beq_iff_eq]
    exact fun hc => h s hs hc
  rw [hfind]

/-- Witness for C6: a wrong password against the one-student store. -/
theorem C6_login_no_match_frame_witness :
    login db1 emptySession "12345" "wrong" = (.loginView true, emptySession) :=
  C6_login_no_match_frame db1 emptySession "12345" "wrong" (by decide)

/-- Tag stripping is the identity on a string without `<`. -/
theorem stripTagsAux_no_lt (l : List Char) (h : ∀ c ∈ l, (c == '<') = false) :
    stripTagsAux l none = l := by
  induction l with
  | nil => rfl
  | cons c rest ih =>
    have hc : (c == '<') = false := h c (List.mem_cons_self c rest)
    simp only [stripTagsAux, hc, Bool.false_eq_true, if_false, List.cons.injEq,
      true_and]
    exact ih fun x hx => h x (List.mem_cons_of_mem c hx)

/-- Tag stripping is the identity on a string without `<`. -/
theorem stripTags_no_lt (s : String) (h : ∀ c ∈ s.data, (c == '<') = false) :
    stripTags s = s := by
  unfold stripTags
  rw [stripTagsAux_no_lt s.data h]

/-- `escapeChar` leaves a non-special character alone. -/
theorem escapeChar_plain (c : Char) (h : isHtmlSpecial c = false) :
    escapeChar c = String.singleton c := by
  simp only [isHtmlSpecial, Bool.or_eq_false_iff] at h
  obtain ⟨⟨⟨⟨h1, h2⟩, h3⟩, h4⟩, h5⟩ := h
  simp [escapeChar, h1, h2, h3, h4, h5]

/-- Escaping is the identity on a string of non-special characters. -/
theorem escapeList_no_special (l : List Char)
    (h : ∀ c ∈ l, isHtmlSpecial c = false) : escapeList l = l := by
  induction l with
  | nil => rfl
  | cons c rest ih =>
    rw [escapeList, escapeChar_plain c (h c (List.mem_cons_self c rest))]
    show [c] ++ escapeList rest = c :: rest
    rw [ih fun x hx => h x (List.mem_cons_of_mem c hx)]
    rfl

/-- Escaping is the identity on a string of non-special characters. -/
theorem escape_no_special (s : String) (h : ∀ c ∈ s.data, isHtmlSpecial c = false) :
    escape s = s := by
  unfold escape
  rw [escapeList_no_special s.data h]

/-- The sanitizer's text transformation fixes `longText`. -/
theorem longText_fixed : escape (stripTags longText) = longText := by
  have hmem : ∀ c ∈ longText.data, c = 'a' := fun c hc =>
    List.eq_of_mem_replicate hc
  have h1 : stripTags longText = longText :=
    stripTags_no_lt longText fun c hc => by rw [hmem c hc]; decide
  have h2 : escape longText = longText :=
    escape_no_special longText fun c hc => by rw [hmem c hc]; decide
  rw [h1, h2]

/-- `longText` is over the 1000-character feedback limit. -/
theorem longText_oversize :
    1000 < (escape (stripTags ((some longText : Option String).getD ""))).length := by
  have h : (some longText : Option String).getD "" = longText := rfl
  rw [h, longText_fixed]
  show 1000 < longText.data.length
  rw [show longText.data = List.replicate 1001 'a' from rfl,
    List.length_replicate]
  norm_num

/-- Claim C3: a feedback submission whose sanitized content is over 150
words or over 1000 characters is answered with a validation view (the
missing-field or a limit flash) and the store is unchanged. -/
theorem C3_feedback_oversize_rejected (db : DB) (now : Nat) (ok : Bool)
    (student_number feedback_content : Option String)
    (h : 150 < wordCount (escape (stripTags (feedback_content.getD ""))) ∨
         1000 < (escape (stripTags (feedback_content.getD ""))).length) :
    ((feedback db now ok student_number feedback_content).1 =
        FeedbackOutcome.missingView ∨
     (feedback db now ok student_number feedback_content).1 =
        FeedbackOutcome.wordLimitView ∨
     (feedback db now ok student_number feedback_content).1 =
        FeedbackOutcome.charLimitView) ∧
    (feedback db now ok student_number feedback_content).2 = db := by
  by_cases h1 : (optFalsy student_number || optFalsy feedback_content) = true
  · simp [feedback, h1]
  · by_cases h2 : 150 < wordCount (escape (stripTags (feedback_content.getD "")))
    · simp [feedback, h1, h2]
    · have h3 : 1000 < (escape (stripTags (feedback_content.getD ""))).length := by
        tauto
      simp [feedback, h1, h2, h3]

/-- Witness for C3: a 1001-character submission from a valid student is
rejected and nothing is stored. -/
theorem C3_feedback_oversize_rejected_witness :
    ((feedback db1 0 true (some "12345") (some longText)).1 =
        FeedbackOutcome.missingView ∨
     (feedback db1 0 true (some "12345") (some longText)).1 =
        FeedbackOutcome.wordLimitView ∨
     (feedback db1 0 true (some "12345") (some longText)).1 =
        FeedbackOutcome.charLimitView) ∧
    (feedback db1 0 true (some "12345") (some longText)).2 = db1 :=
  C3_feedback_oversize_rejected db1 0 true (some "12345") (some longText)
    (Or.inr longText_oversize)

/-- Claim C10: the length checks run before the student lookup — an
oversize submission is answered with a limit flash for every store, even
one with no matching student, and the unknown-student flash can only be
produced by a submission within both limits. -/
theorem C10_limits_checked_before_student (db : DB) (now : Nat) (ok : Bool)
    (student_number feedback_content : Option String) :
    ((150 < wordCount (escape (stripTags (feedback_content.getD ""))) ∨
        1000 < (escape (stripTags (feedback_content.getD ""))).length) →
      optFalsy student_number = false → optFalsy feedback_content = false →
      ((feedback db now ok student_number feedback_content).1 =
          FeedbackOutcome.wordLimitView ∨
       (feedback db now ok student_number feedback_content).1 =
          FeedbackOutcome.charLimitView)) ∧
    ((feedback db now ok student_number feedback_content).1 =
        FeedbackOutcome.unknownStudentView →
      wordCount (escape (stripTags (feedback_content.getD ""))) ≤ 150 ∧
      (escape (stripTags (feedback_content.getD ""))).length ≤ 1000) := by
  constructor
  · intro h hsn hc
    rcases h with h2 | h3
    · left
      simp [feedback, hsn, hc, h2]
    · by_cases h2 : 150 < wordCount (escape (stripTags (feedback_content.getD "")))
      · left
        simp [feedback, hsn, hc, h2]
      · right
        simp [feedback, hsn, hc, h2, h3]
  · intro hout
    by_cases h1 : (optFalsy student_number || optFalsy feedback_content) = true
    · simp [feedback, h1] at hout
    · constructor
      · by_contra hw
        push_neg at hw
        simp [feedback, h1, hw] at hout
      · by_contra hc
        push_neg at hc
        by_cases hw : 150 < wordCount (escape (stripTags (feedback_content.getD "")))
        · simp [feedback, h1, hw] at hout
        · simp [feedback, h1, hw, hc] at hout

/-- Witness for C10: an oversize submission with a student number that is
in no store row still yields the character-limit flash. -/
theorem C10_limits_checked_before_student_witness :
    (feedback db1 0 true (some "99999") (some longText)).1 =
        FeedbackOutcome.wordLimitView ∨
    (feedback db1 0 true (some "99999") (some longText)).1 =
        FeedbackOutcome.charLimitView :=
  (C10_limits_checked_before_student db1 0 true (some "99999")
    (some longText)).1 (Or.inr longText_oversize) (by decide) (by decide)

/-- Claim C2 (amended): a registration attempt that passes required-field
validation (all four sanitized fields present and non-empty) and whose
sanitized student number is already in the store is answered with the
`alreadyexist` view, and neither the store nor the session changes. -/
theorem C2_duplicate_flag_no_write (db : DB) (sess : Session) (f : RegisterForm)
    (ok : Nat → Bool) (sn pw nm em : String)
    (hcrash : ((f.is_tutor == some "on") &&
      (f.subjects.isNone || f.year.isNone)) = false)
    (hsn : sanitize (pyStrip f.student_number) 1 20 = some sn)
    (hpw : sanitize (pyStrip f.password) 1 50 = some pw)
    (hnm : sanitize (pyStrip f.student_name ++ " " ++
      pyStrip (f.student_lastname.getD "")) 10 100 = some nm)
    (hem : sanitize (pyStrip f.email) 1 100 = some em)
    (hval : (sn == "" || pw == "" || nm == "" || em == "") = false)
    (hdup : (db.students.any fun s => s.student_number == sn) = true) :
    register db sess f ok = (.duplicateView, db, sess) := by
  simp only [register, hcrash, Bool.false_eq_true, if_false, hsn, hpw, hnm, hem,
    hval, hdup, if_true]

/-- Witness for C2 (amended): a valid re-registration of `student1`'s
number returns the duplicate view and writes nothing. -/
theorem C2_duplicate_flag_no_write_witness :
    register db1 emptySession dupFormValid (fun _ => true) =
      (.duplicateView, db1, emptySession) :=
  C2_duplicate_flag_no_write db1 emptySession dupFormValid (fun _ => true)
    "12345" "pw2" "Al " "al@x.com" (by decide) (by decide) (by decide)
    (by decide) (by decide) (by decide) (by decide)

/-- Claim C1 (amended): the Student and Tutor rows are written by two
separate commits with no shared transaction — when the first commit
succeeds and the second fails, the new Student row stays persisted with no
Tutor row, the session is not set, and the error escapes the handler. -/
theorem C1_second_commit_partial_write (db : DB) (sess : Session)
    (f : RegisterForm) (ok : Nat → Bool) (sn pw nm em subj yr s0 y0 : String)
    (htut : f.is_tutor = some "on")
    (hs0 : f.subjects = some s0) (hy0 : f.year = some y0)
    (hsn : sanitize (pyStrip f.student_number) 1 20 = some sn)
    (hpw : sanitize (pyStrip f.password) 1 50 = some pw)
    (hnm : sanitize (pyStrip f.student_name ++ " " ++
      pyStrip (f.student_lastname.getD "")) 10 100 = some nm)
    (hem : sanitize (pyStrip f.email) 1 100 = some em)
    (hval : (sn == "" || pw == "" || nm == "" || em == "") = false)
    (hdup : (db.students.any fun s => s.student_number == sn) = false)
    (hs1 : (pyStrip s0 != "") = true)
    (hy1 : (pyStrip y0 != "") = true)
    (hsubj : sanitize (pyStrip s0) 20 200 = some subj)
    (hyr : sanitize (pyStrip y0) 1 4 = some yr)
    (hsubj1 : (subj == "") = false) (hyr1 : (yr == "") = false)
    (hok0 : ok 0 = true) (hok1 : ok 1 = false) :
    register db sess f ok =
      (.crash,
       { db with students := db.students ++
           [{ id := db.students.length + 1, student_number := sn,
              name := pyStrip nm, password := pw, email := em,
              hobbies := none, destination := none }] },
       sess) := by
  simp only [register, htut, hs0, hy0, hsn, hpw, hnm, hem, hval, hdup, hs1,
    hy1, hsubj, hyr, hsubj1, hyr1, hok0, hok1, optFalsy, Option.isNone_some,
    Bool.or_self, Bool.and_false, Bool.false_eq_true, if_false, Option.getD_some,
    beq_self_eq_true, Bool.true_and, Bool.false_or, Bool.or_false, Bool.not_true,
    Bool.not_false, if_true]

/-- Witness for C1 (amended): the valid tutor form against the empty store,
first commit succeeding, second failing, keeps exactly the Student row. -/
theorem C1_second_commit_partial_write_witness :
    register emptyDB emptySession tutorForm failSecondCommit =
      (.crash,
       { emptyDB with students := emptyDB.students ++
           [{ id := emptyDB.students.length + 1, student_number := "54321",
              name := pyStrip "Amy ", password := "pw", email := "amy@x.com",
              hobbies := none, destination := none }] },
       emptySession) :=
  C1_second_commit_partial_write emptyDB emptySession tutorForm failSecondCommit
    "54321" "pw" "Amy " "amy@x.com" "Math,Physics" "13" "Math,Physics" "13"
    (by decide) (by decide) (by decide) (by decide) (by decide) (by decide)
    (by decide) (by decide) (by decide) (by decide) (by decide) (by decide)
    (by decide) (by decide) (by decide) (by decide) (by decide)

/-- A non-special character is not `<`. -/
theorem no_lt_of_no_special {c : Char} (h : isHtmlSpecial c = false) :
    (c == '<') = false := by
  simp only [isHtmlSpecial, Bool.or_eq_false_iff] at h
  exact h.1.1.1.2

/-- Claim C5 (amended): the sanitizer is idempotent exactly on outputs free
of HTML-special characters — when a successful sanitization's output
contains none of `&`, `<`, `>`, `"`, `'`, re-sanitizing it returns it
unchanged (in general re-sanitizing re-escapes the `&` of the entities the
first pass introduced). -/
theorem C5_sanitize_idempotent_on_plain (text o : String) (mw mc : Nat)
    (h : sanitize text mw mc = some o)
    (hplain : ∀ c ∈ o.data, isHtmlSpecial c = false) :
    sanitize o mw mc = some o := by
  by_cases h1 : mw < wordCount (escape (stripTags text))
  · simp [sanitize, h1] at h
  · by_cases h2 : mc < (escape (stripTags text)).length
    · simp [sanitize, h1, h2] at h
    · simp only [sanitize, gt_iff_lt, h1, h2, if_false, Option.some.injEq] at h
      subst h
      have hs : stripTags (escape (stripTags text)) = escape (stripTags text) :=
        stripTags_no_lt _ fun c hc => no_lt_of_no_special (hplain c hc)
      have he : escape (escape (stripTags text)) = escape (stripTags text) :=
        escape_no_special _ hplain
      simp only [sanitize, hs, he, gt_iff_lt, h1, h2, if_false]

/-- Witness for C5 (amended): sanitizing a tagged text gives a special-free
output, and re-sanitizing that output leaves it unchanged. -/
theorem C5_sanitize_idempotent_on_plain_witness :
    sanitize "hi there" 50 200 = some "hi there" :=
  C5_sanitize_idempotent_on_plain "<b>hi</b> there" "hi there" 50 200
    (by decide) (by decide)

/-- Sorting a table whose appended row has a strictly larger timestamp than
every earlier row puts that row first. -/
theorem insertionSort_fresh_head (l : List Idea) (a : Idea)
    (h : ∀ x ∈ l, x.timestamp < a.timestamp) :
    (List.insertionSort ideaDesc (l ++ [a])).head? = some a := by
  have hperm : List.Perm (List.insertionSort ideaDesc (l ++ [a])) (l ++ [a]) :=
    List.perm_insertionSort ideaDesc (l ++ [a])
  have hsorted : List.Sorted ideaDesc (List.insertionSort ideaDesc (l ++ [a])) :=
    List.sorted_insertionSort ideaDesc (l ++ [a])
  have ha : a ∈ List.insertionSort ideaDesc (l ++ [a]) :=
    hperm.symm.subset (by simp)
  rcases hL : List.insertionSort ideaDesc (l ++ [a]) with _ | ⟨b, t⟩
  · rw [hL] at ha
    exact absurd ha (List.not_mem_nil a)
  · rw [hL] at ha hsorted hperm
    have hb : b ∈ l ++ [a] := hperm.subset (List.mem_cons_self b t)
    rw [List.mem_append] at hb
    rcases hb with hb | hb
    · have hlt : b.timestamp < a.timestamp := h b hb
      rcases List.mem_cons.mp ha with rfl | hat
      · exact absurd hlt (lt_irrefl _)
      · have hba : ideaDesc b a := List.rel_of_sorted_cons hsorted a hat
        exact absurd (lt_of_le_of_lt hba hlt) (lt_irrefl _)
    · rw [List.mem_singleton.mp hb]
      rfl

/-- Claim C4: after a successful feedback submission whose timestamp is
later than every stored Idea's, the next read of the list is a
descending-timestamp ordering of all Ideas with the new Idea first. -/
theorem C4_feedback_roundtrip (db : DB) (now : Nat) (sn content : String)
    (student : Student)
    (hsn : sn ≠ "") (hcontent : content ≠ "")
    (hw : ¬ 150 < wordCount (escape (stripTags content)))
    (hl : ¬ 1000 < (escape (stripTags content)).length)
    (hfind : db.students.find? (fun s => s.student_number == sn) = some student)
    (hfresh : ∀ i ∈ db.ideas, i.timestamp < now) :
    (feedback db now true (some sn) (some content)).1 =
      FeedbackOutcome.successRedirect ∧
    ((feedback db now true (some sn) (some content)).2).ideas =
      db.ideas ++ [{ id := db.ideas.length + 1,
                     content := escape (stripTags content), timestamp := now,
                     student_id := student.id }] ∧
    (readFeedback ((feedback db now true (some sn) (some content)).2)).head? =
      some { id := db.ideas.length + 1, content := escape (stripTags content),
             timestamp := now, student_id := student.id } ∧
    List.Sorted ideaDesc
      (readFeedback ((feedback db now true (some sn) (some content)).2)) ∧
    List.Perm (readFeedback ((feedback db now true (some sn) (some content)).2))
      ((feedback db now true (some sn) (some content)).2).ideas := by
  have hrun : feedback db now true (some sn) (some content) =
      (FeedbackOutcome.successRedirect,
       { db with ideas := db.ideas ++
           [{ id := db.ideas.length + 1, content := escape (stripTags content),
              timestamp := now, student_id := student.id }] }) := by
    simp [feedback, optFalsy, hsn, hcontent, hw, hl, hfind]
  rw [hrun]
  refine ⟨rfl, rfl, ?_, List.sorted_insertionSort _ _, List.perm_insertionSort _ _⟩
  exact insertionSort_fresh_head db.ideas _ hfresh

/-- Witness for C4: `student1` submits a short feedback at time 5 against a
store with no prior ideas; the read returns it first. -/
theorem C4_feedback_roundtrip_witness :
    (feedback db1 5 true (some "12345") (some "great school")).1 =
      FeedbackOutcome.successRedirect ∧
    ((feedback db1 5 true (some "12345") (some "great school")).2).ideas =
      db1.ideas ++ [{ id := db1.ideas.length + 1,
                      content := escape (stripTags "great school"),
                      timestamp := 5, student_id := student1.id }] ∧
    (readFeedback ((feedback db1 5 true (some "12345") (some "great school")).2)).head? =
      some { id := db1.ideas.length + 1,
             content := escape (stripTags "great school"),
             timestamp := 5, student_id := student1.id } ∧
    List.Sorted ideaDesc
      (readFeedback ((feedback db1 5 true (some "12345") (some "great school")).2)) ∧
    List.Perm
      (readFeedback ((feedback db1 5 true (some "12345") (some "great school")).2))
      ((feedback db1 5 true (some "12345") (some "great school")).2).ideas :=
  C4_feedback_roundtrip db1 5 "12345" "great school" student1
    (by decide) (by decide) (by decide) (by decide) (by decide) (by decide)

end ISHW
